import Mathlib

/-!
Shallow embedding of `src/app.py`, an interactive RC chimney design workbook.
Numbers are modelled as exact rationals; `np_pi` is the exact value of the
IEEE-754 double `numpy.pi`. Each `generate_sheet_1` / `calculate_sheet_*`
function below transliterates the Python function of the same name; pandas
column operations become `List` maps, `cumsum` models `pandas.Series.cumsum`,
and the two hand-written moment loops of sheets 2 and 3 are transliterated
separately as `windMomentStep` and `seismicMomentStep`.
-/

/-- Exact rational value of the IEEE-754 double `numpy.pi`. -/
def np_pi : ℚ := 884279719003555 / 281474976710656

/-- Global parameters, mirroring `st.session_state.params` in `src/app.py`. -/
structure Params where
  total_height : ℚ
  top_inner_dia : ℚ
  thickness : ℚ
  conc_density : ℚ
  grade_conc : String
  wind_speed : ℚ
  seismic_zone : ℚ
deriving DecidableEq

/-- Default parameter values from `src/app.py`. -/
def defaultParams : Params :=
  { total_height := 30, top_inner_dia := 1.35, thickness := 0.2,
    conc_density := 2.5, grade_conc := "M30", wind_speed := 47,
    seismic_zone := 0.16 }

/-- The hardcoded level elevations in `generate_sheet_1`. -/
def levels : List ℚ :=
  [30.3, 30.0, 27.5, 25.0, 22.5, 20.0, 17.5, 15.0, 12.5, 10.0, 7.5, 5.0,
   2.5, 0.0, -1.7, -3.0]

/-- One row of the sheet-1 (dead loads / geometry) table. -/
structure Sheet1Row where
  level : ℚ
  segment_h : ℚ
  outer_dia : ℚ
  inner_dia : ℚ
  thickness : ℚ
  area : ℚ
  inertia : ℚ
  z_modulus : ℚ
  shell_wt : ℚ
  liner_load : ℚ
  platform_load : ℚ
  corbel_load : ℚ
deriving DecidableEq, Inhabited

/-- Transliteration of `generate_sheet_1` from `src/app.py`: builds the
dead-load/geometry table over the hardcoded elevation list, including the
two manual segment-height overrides at elevations 30.3 and 30.0. -/
def generate_sheet_1 (p : Params) : List Sheet1Row :=
  levels.enum.map fun il =>
    let i := il.1
    let lvl := il.2
    let inner_dia := p.top_inner_dia
    let outer_dia := inner_dia + 2 * p.thickness
    let area := (np_pi / 4) * (outer_dia ^ 2 - inner_dia ^ 2)
    let inertia := (np_pi / 64) * (outer_dia ^ 4 - inner_dia ^ 4)
    let z_mod := inertia / (outer_dia / 2)
    let hs0 : ℚ := if i < levels.length - 1 then lvl - levels.getD (i + 1) 0 else 0
    let hs1 : ℚ := if lvl = 30.3 then 0 else hs0
    let height_segment : ℚ := if lvl = 30.0 then 0.3 else hs1
    let shell_wt := area * height_segment * p.conc_density
    { level := lvl, segment_h := height_segment, outer_dia := outer_dia,
      inner_dia := inner_dia, thickness := p.thickness, area := area,
      inertia := inertia, z_modulus := z_mod, shell_wt := shell_wt,
      liner_load := 0, platform_load := 0, corbel_load := 0 }

/-- `pandas.Series.cumsum`: inclusive running sums. -/
def cumsumFrom (acc : ℚ) : List ℚ → List ℚ
  | [] => []
  | x :: xs => (acc + x) :: cumsumFrom (acc + x) xs

/-- Inclusive top-down cumulative sum of a column. -/
def cumsum (xs : List ℚ) : List ℚ := cumsumFrom 0 xs

/-- The terrain-category-2 `k2` step table of `calculate_sheet_2`. -/
def get_k2 (h : ℚ) : ℚ :=
  if h ≤ 10 then 1.0
  else if h ≤ 15 then 1.05
  else if h ≤ 20 then 1.07
  else if h ≤ 30 then 1.12
  else 1.15

/-- Per-row wind force of `calculate_sheet_2` (the body of its row loop). -/
def wind_force_row (vb k1 k3 cd : ℚ) (r : Sheet1Row) : ℚ :=
  let h_calc : ℚ := if r.level > 0 then r.level else 0
  let k2 := get_k2 h_calc
  let vz := vb * k1 * k2 * k3
  let pz := 0.6 * vz ^ 2 / 1000
  let projected_area := r.outer_dia * r.segment_h
  let force_kn := pz * projected_area * cd
  force_kn / 9.81

/-- The hand-written moment loop of `calculate_sheet_2`:
`moments[0] = 0`, `moments[i] = moments[i-1] + shear[i-1] * segment_h[i-1]`,
expressed as a walk over the zipped (shear, segment height) column pairs. -/
def windMomentStep : ℚ → List (ℚ × ℚ) → List ℚ
  | _, [] => []
  | m, sh :: rest => m :: windMomentStep (m + sh.1 * sh.2) rest

/-- The hand-written moment loop of `calculate_sheet_3` (textually identical
to the one in `calculate_sheet_2`). -/
def seismicMomentStep : ℚ → List (ℚ × ℚ) → List ℚ
  | _, [] => []
  | m, sh :: rest => m :: seismicMomentStep (m + sh.1 * sh.2) rest

/-- Columns appended by `calculate_sheet_2`. -/
structure Sheet2Out where
  wind_force : List ℚ
  wind_shear : List ℚ
  wind_moment : List ℚ
deriving DecidableEq

/-- Transliteration of `calculate_sheet_2` from `src/app.py`: per-level wind
force, cumulative shear and the cantilever moment loop. -/
def calculate_sheet_2 (df : List Sheet1Row) (vb k1 k3 cd : ℚ) : Sheet2Out :=
  let wind_forces := df.map (wind_force_row vb k1 k3 cd)
  let wind_shear := cumsum wind_forces
  let wind_moment := windMomentStep 0 (wind_shear.zip (df.map (·.segment_h)))
  { wind_force := wind_forces, wind_shear := wind_shear, wind_moment := wind_moment }

/-- `min` of a pandas column (defined, as pandas is, only up to the nonempty
case; `0` stands in for the empty table). -/
def listMin : List ℚ → ℚ
  | [] => 0
  | x :: xs => xs.foldl min x

/-- Columns appended by `calculate_sheet_3`, plus its `Base_Shear` return value. -/
structure Sheet3Out where
  total_node_wt : List ℚ
  height_h : List ℚ
  wi_hi2 : List ℚ
  seismic_force : List ℚ
  seismic_shear : List ℚ
  seismic_moment : List ℚ
  base_shear : ℚ
deriving DecidableEq

/-- Transliteration of `calculate_sheet_3` from `src/app.py`: seismic weight,
base shear, weight-height-squared force distribution (with the explicit
division-by-zero guard), cumulative shear and the moment loop. -/
def calculate_sheet_3 (df : List Sheet1Row) (zone_factor Ifac R Sa_g : ℚ) : Sheet3Out :=
  let total_node_wt := df.map fun r =>
    r.shell_wt + r.liner_load + r.platform_load + r.corbel_load
  let total_weight := total_node_wt.sum
  let Ah := (zone_factor / 2) * (Ifac / R) * Sa_g
  let base_shear := Ah * total_weight
  let base_level := listMin (df.map (·.level))
  let height_h := df.map fun r => r.level - base_level
  let wi_hi2 := List.zipWith (fun w h => w * h ^ 2) total_node_wt height_h
  let sum_wi_hi2 := wi_hi2.sum
  let seismic_force :=
    if sum_wi_hi2 = 0 then total_node_wt.map fun _ => (0 : ℚ)
    else wi_hi2.map fun w => base_shear * (w / sum_wi_hi2)
  let seismic_shear := cumsum seismic_force
  let seismic_moment := seismicMomentStep 0 (seismic_shear.zip (df.map (·.segment_h)))
  { total_node_wt := total_node_wt, height_h := height_h, wi_hi2 := wi_hi2,
    seismic_force := seismic_force, seismic_shear := seismic_shear,
    seismic_moment := seismic_moment, base_shear := base_shear }

/-- The columns `calculate_sheet_4` reads from the enriched table. -/
structure Sheet4In where
  level : ℚ
  total_node_wt : ℚ
  wind_moment : ℚ
  seismic_moment : ℚ
  area : ℚ
  z_modulus : ℚ
deriving DecidableEq, Inhabited

/-- One row of the sheet-4 stress-results table. -/
structure StressRow where
  level : ℚ
  axial_p : ℚ
  moment_m : ℚ
  stress_direct : ℚ
  stress_bending : ℚ
  max_comp : ℚ
  min_stress : ℚ
  status : String
deriving DecidableEq, Inhabited

/-- The body of the row loop of `calculate_sheet_4`: one stress-result row
from an input row paired with its cumulative axial load. -/
def stress_row (ra : Sheet4In × ℚ) : StressRow :=
  let P := ra.2
  let M := max ra.1.wind_moment ra.1.seismic_moment
  let A := ra.1.area
  let Z := ra.1.z_modulus
  let sigma_direct := if A > 0 then P / A else 0
  let sigma_bending := if Z > 0 then M / Z else 0
  let max_comp := sigma_direct + sigma_bending
  let min_stress := sigma_direct - sigma_bending
  { level := ra.1.level, axial_p := P, moment_m := M,
    stress_direct := sigma_direct, stress_bending := sigma_bending,
    max_comp := max_comp, min_stress := min_stress,
    status := if min_stress < 0 then "⚠️ TENSION" else "OK" }

/-- Transliteration of `calculate_sheet_4` from `src/app.py`: cumulative
axial load, governing moment envelope, direct/bending stresses with the
zero-area and zero-modulus guards, and the tension flag. -/
def calculate_sheet_4 (df : List Sheet4In) : List StressRow :=
  let axial := cumsum (df.map (·.total_node_wt))
  (df.zip axial).map stress_row

/-! ### Helper lemmas about the column combinators -/

theorem cumsumFrom_length (a : ℚ) (xs : List ℚ) :
    (cumsumFrom a xs).length = xs.length := by
  induction xs generalizing a with
  | nil => rfl
  | cons x l ih => simp [cumsumFrom, ih]

theorem cumsum_length (xs : List ℚ) : (cumsum xs).length = xs.length :=
  cumsumFrom_length 0 xs

theorem cumsumFrom_getD (xs : List ℚ) (a : ℚ) (i : ℕ) (h : i < xs.length) :
    (cumsumFrom a xs).getD i 0 = a + (xs.take (i + 1)).sum := by
  induction xs generalizing a i with
  | nil => simp at h
  | cons x l ih =>
    cases i with
    | zero => simp [cumsumFrom]
    | succ j =>
      have hj : j < l.length := by simpa using h
      simp only [cumsumFrom, List.getD_cons_succ, ih (a + x) j hj,
        List.take_succ_cons, List.sum_cons]
      ring

theorem cumsum_getD (xs : List ℚ) (i : ℕ) (h : i < xs.length) :
    (cumsum xs).getD i 0 = (xs.take (i + 1)).sum := by
  simpa [cumsum] using cumsumFrom_getD xs 0 i h

theorem sum_take_nonneg (xs : List ℚ) (hx : ∀ x ∈ xs, 0 ≤ x) (n : ℕ) :
    0 ≤ (xs.take n).sum :=
  List.sum_nonneg fun x hxm => hx x (List.mem_of_mem_take hxm)

theorem sum_take_le_sum_take (xs : List ℚ) (hx : ∀ x ∈ xs, 0 ≤ x)
    (m n : ℕ) (hmn : m ≤ n) : (xs.take m).sum ≤ (xs.take n).sum := by
  induction xs generalizing m n with
  | nil => simp
  | cons x l ih =>
    cases m with
    | zero => simpa using sum_take_nonneg (x :: l) hx n
    | succ m' =>
      cases n with
      | zero => omega
      | succ n' =>
        simp only [List.take_succ_cons, List.sum_cons]
        have hx' : ∀ y ∈ l, 0 ≤ y := fun y hy => hx y (List.mem_cons_of_mem _ hy)
        exact add_le_add_left (ih hx' m' n' (Nat.succ_le_succ_iff.mp hmn)) x

theorem cumsum_getD_mono (xs : List ℚ) (hx : ∀ x ∈ xs, 0 ≤ x)
    (i j : ℕ) (hij : i ≤ j) (hj : j < xs.length) :
    (cumsum xs).getD i 0 ≤ (cumsum xs).getD j 0 := by
  have hi : i < xs.length := lt_of_le_of_lt hij hj
  rw [cumsum_getD xs i hi, cumsum_getD xs j hj]
  exact sum_take_le_sum_take xs hx (i + 1) (j + 1) (Nat.succ_le_succ hij)

theorem getD_map_of_lt {α β : Type} (f : α → β) (xs : List α) (d : α) (b : β)
    (i : ℕ) (h : i < xs.length) : (xs.map f).getD i b = f (xs.getD i d) := by
  induction xs generalizing i with
  | nil => simp at h
  | cons x l ih =>
    cases i with
    | zero => rfl
    | succ j =>
      have hj : j < l.length := by simpa using h
      simpa using ih j hj

theorem zip_getD_of_lt {α β : Type} (xs : List α) (ys : List β) (a : α) (b : β)
    (i : ℕ) (h1 : i < xs.length) (h2 : i < ys.length) :
    (xs.zip ys).getD i (a, b) = (xs.getD i a, ys.getD i b) := by
  induction xs generalizing ys i with
  | nil => simp at h1
  | cons x l ih =>
    cases ys with
    | nil => simp at h2
    | cons y m =>
      cases i with
      | zero => rfl
      | succ j =>
        have hj1 : j < l.length := by simpa using h1
        have hj2 : j < m.length := by simpa using h2
        simpa using ih m j hj1 hj2

theorem windMomentStep_length (m : ℚ) (ps : List (ℚ × ℚ)) :
    (windMomentStep m ps).length = ps.length := by
  induction ps generalizing m with
  | nil => rfl
  | cons sh rest ih => simp [windMomentStep, ih]

theorem windMomentStep_getD_zero (m : ℚ) (ps : List (ℚ × ℚ)) (hps : ps ≠ []) :
    (windMomentStep m ps).getD 0 0 = m := by
  cases ps with
  | nil => exact absurd rfl hps
  | cons sh rest => rfl

theorem windMomentStep_zero_getD_zero (ps : List (ℚ × ℚ)) :
    (windMomentStep 0 ps).getD 0 0 = 0 := by
  cases ps <;> rfl

theorem seismicMomentStep_zero_getD_zero (ps : List (ℚ × ℚ)) :
    (seismicMomentStep 0 ps).getD 0 0 = 0 := by
  cases ps <;> rfl

theorem windMomentStep_getD_succ (ps : List (ℚ × ℚ)) (m : ℚ) (i : ℕ)
    (h : i + 1 < ps.length) :
    (windMomentStep m ps).getD (i + 1) 0 =
      (windMomentStep m ps).getD i 0 + (ps.getD i (0, 0)).1 * (ps.getD i (0, 0)).2 := by
  induction ps generalizing m i with
  | nil => simp at h
  | cons sh rest ih =>
    cases i with
    | zero =>
      cases rest with
      | nil => simp at h
      | cons q rs => simp [windMomentStep]
    | succ j =>
      have hj : j + 1 < rest.length := by simpa using h
      simpa [windMomentStep] using ih (m + sh.1 * sh.2) j hj

theorem windMomentStep_eq_seismicMomentStep : windMomentStep = seismicMomentStep := by
  funext m ps
  induction ps generalizing m with
  | nil => rfl
  | cons sh rest ih => simp [windMomentStep, seismicMomentStep, ih]

theorem getD_mem {α : Type} (l : List α) (n : ℕ) (d : α) (h : n < l.length) :
    l.getD n d ∈ l := by
  induction l generalizing n with
  | nil => simp at h
  | cons x t ih =>
    cases n with
    | zero => exact List.mem_cons_self x t
    | succ m => exact List.mem_cons_of_mem x (ih m (by simpa using h))

/-! ### Claim theorems -/

/-- Claim C3: in every stress table produced by `calculate_sheet_4`, a row's
status is the tension flag exactly when its `min_stress` is negative, and on
the exact boundary `min_stress = 0` the status is OK. -/
theorem c3_tension_iff_min_stress_neg (df : List Sheet4In) (row : StressRow)
    (hrow : row ∈ calculate_sheet_4 df) :
    (row.status = "⚠️ TENSION" ↔ row.min_stress < 0) ∧
    (row.min_stress = 0 → row.status = "OK") := by
  have hne : ("OK" : String) ≠ "⚠️ TENSION" := by decide
  simp only [calculate_sheet_4, stress_row, List.mem_map] at hrow
  obtain ⟨ra, hmem, rfl⟩ := hrow
  dsimp only
  by_cases h : (if ra.1.area > 0 then ra.2 / ra.1.area else 0) -
      (if ra.1.z_modulus > 0 then
        max ra.1.wind_moment ra.1.seismic_moment / ra.1.z_modulus else 0) < 0
  · refine ⟨by simp [h], fun h0 => ?_⟩
    rw [h0] at h
    exact absurd h (lt_irrefl 0)
  · exact ⟨by simp [h, hne], fun _ => by simp [h]⟩

/-- Concrete one-row input table used to witness the sheet-4 claims. -/
def c3df : List Sheet4In :=
  [{ level := 0, total_node_wt := 1, wind_moment := 0, seismic_moment := 0,
     area := 1, z_modulus := 1 }]

/-- Witness for C3 at a concrete one-row table. -/
theorem c3_witness :
    ((calculate_sheet_4 c3df).getD 0 default ∈ calculate_sheet_4 c3df) ∧
    (((calculate_sheet_4 c3df).getD 0 default).status = "⚠️ TENSION" ↔
      ((calculate_sheet_4 c3df).getD 0 default).min_stress < 0) ∧
    (((calculate_sheet_4 c3df).getD 0 default).min_stress = 0 →
      ((calculate_sheet_4 c3df).getD 0 default).status = "OK") := by
  have hmem : (calculate_sheet_4 c3df).getD 0 default ∈ calculate_sheet_4 c3df :=
    getD_mem _ 0 _ (by norm_num [calculate_sheet_4, c3df, cumsum, cumsumFrom])
  exact ⟨hmem, c3_tension_iff_min_stress_neg c3df _ hmem⟩

/-- Claim C9: for every parameter set, `generate_sheet_1` returns exactly the
16 hardcoded elevations, and the `total_height` parameter has no effect on
the generated table. -/
theorem c9_fixed_levels (p : Params) (h : ℚ) :
    (generate_sheet_1 p).map (·.level) =
      [30.3, 30.0, 27.5, 25.0, 22.5, 20.0, 17.5, 15.0, 12.5, 10.0, 7.5, 5.0,
       2.5, 0.0, -1.7, -3.0] ∧
    (generate_sheet_1 p).length = 16 ∧
    generate_sheet_1 { p with total_height := h } = generate_sheet_1 p :=
  ⟨rfl, rfl, rfl⟩

/-- Claim C10: every level generated by `generate_sheet_1` uses the top inner
diameter and a constant wall thickness, so diameters and all derived section
properties are identical across levels (no taper). -/
theorem c10_uniform_geometry (p : Params) (r r' : Sheet1Row)
    (hr : r ∈ generate_sheet_1 p) (hr' : r' ∈ generate_sheet_1 p) :
    r.inner_dia = p.top_inner_dia ∧
    r.outer_dia = p.top_inner_dia + 2 * p.thickness ∧
    r.outer_dia = r'.outer_dia ∧ r.inner_dia = r'.inner_dia ∧
    r.area = r'.area ∧ r.inertia = r'.inertia ∧ r.z_modulus = r'.z_modulus := by
  simp only [generate_sheet_1, List.mem_map] at hr hr'
  obtain ⟨il, hil, rfl⟩ := hr
  obtain ⟨il', hil', rfl⟩ := hr'
  exact ⟨rfl, rfl, rfl, rfl, rfl, rfl, rfl⟩

/-- Witness for C10 at the default parameters and the first two rows. -/
theorem c10_witness :
    ((generate_sheet_1 defaultParams).getD 0 default ∈ generate_sheet_1 defaultParams) ∧
    ((generate_sheet_1 defaultParams).getD 1 default ∈ generate_sheet_1 defaultParams) ∧
    ((generate_sheet_1 defaultParams).getD 0 default).inner_dia =
      defaultParams.top_inner_dia ∧
    ((generate_sheet_1 defaultParams).getD 0 default).area =
      ((generate_sheet_1 defaultParams).getD 1 default).area := by
  have hl : (generate_sheet_1 defaultParams).length = 16 := rfl
  have h0 : (generate_sheet_1 defaultParams).getD 0 default ∈
      generate_sheet_1 defaultParams := getD_mem _ 0 _ (by rw [hl]; norm_num)
  have h1 : (generate_sheet_1 defaultParams).getD 1 default ∈
      generate_sheet_1 defaultParams := getD_mem _ 1 _ (by rw [hl]; norm_num)
  have hc := c10_uniform_geometry defaultParams _ _ h0 h1
  exact ⟨h0, h1, hc.1, hc.2.2.2.2.1⟩

/-- Claim C5: both lateral-load distributors integrate identically — shear is
the inclusive top-down cumulative sum of the force column, the moment loop
starts at 0 and steps by `shear[i-1] * segment_h[i-1]`, and the seismic
integrator is the same function of its force series as the wind integrator. -/
theorem c5_integrators_identical (df : List Sheet1Row)
    (vb k1 k3 cd Z Ifac R S : ℚ) (i : ℕ) :
    (calculate_sheet_2 df vb k1 k3 cd).wind_shear =
      cumsum (calculate_sheet_2 df vb k1 k3 cd).wind_force ∧
    (calculate_sheet_3 df Z Ifac R S).seismic_shear =
      cumsum (calculate_sheet_3 df Z Ifac R S).seismic_force ∧
    (i < df.length →
      (calculate_sheet_2 df vb k1 k3 cd).wind_shear.getD i 0 =
        ((calculate_sheet_2 df vb k1 k3 cd).wind_force.take (i + 1)).sum) ∧
    (i < (calculate_sheet_3 df Z Ifac R S).seismic_force.length →
      (calculate_sheet_3 df Z Ifac R S).seismic_shear.getD i 0 =
        ((calculate_sheet_3 df Z Ifac R S).seismic_force.take (i + 1)).sum) ∧
    (calculate_sheet_2 df vb k1 k3 cd).wind_moment.getD 0 0 = 0 ∧
    (calculate_sheet_3 df Z Ifac R S).seismic_moment.getD 0 0 = 0 ∧
    (i + 1 < df.length →
      (calculate_sheet_2 df vb k1 k3 cd).wind_moment.getD (i + 1) 0 =
        (calculate_sheet_2 df vb k1 k3 cd).wind_moment.getD i 0 +
          (calculate_sheet_2 df vb k1 k3 cd).wind_shear.getD i 0 *
            (df.map (·.segment_h)).getD i 0) ∧
    (i + 1 < (calculate_sheet_3 df Z Ifac R S).seismic_force.length →
      (calculate_sheet_3 df Z Ifac R S).seismic_moment.getD (i + 1) 0 =
        (calculate_sheet_3 df Z Ifac R S).seismic_moment.getD i 0 +
          (calculate_sheet_3 df Z Ifac R S).seismic_shear.getD i 0 *
            (df.map (·.segment_h)).getD i 0) ∧
    windMomentStep = seismicMomentStep := by
  have hwm : seismicMomentStep = windMomentStep := windMomentStep_eq_seismicMomentStep.symm
  have hwfl : (calculate_sheet_2 df vb k1 k3 cd).wind_force.length = df.length := by
    simp [calculate_sheet_2]
  have hsfl : (calculate_sheet_3 df Z Ifac R S).seismic_force.length = df.length := by
    simp only [calculate_sheet_3]
    split <;> simp [List.length_zipWith]
  refine ⟨rfl, rfl, ?_, ?_, ?_, ?_, ?_, ?_, windMomentStep_eq_seismicMomentStep⟩
  · intro hi
    exact cumsum_getD _ i (by simpa using hi)
  · intro hi
    exact cumsum_getD _ i hi
  · exact windMomentStep_zero_getD_zero _
  · exact seismicMomentStep_zero_getD_zero _
  · intro hi1
    have hi : i < df.length := Nat.lt_of_succ_lt hi1
    have hsl : (cumsum (calculate_sheet_2 df vb k1 k3 cd).wind_force).length = df.length := by
      rw [cumsum_length, hwfl]
    have hzl : ((cumsum (calculate_sheet_2 df vb k1 k3 cd).wind_force).zip
        (df.map (·.segment_h))).length = df.length := by
      rw [List.length_zip, hsl, List.length_map, min_self]
    have hrec := windMomentStep_getD_succ
      ((cumsum (calculate_sheet_2 df vb k1 k3 cd).wind_force).zip (df.map (·.segment_h)))
      0 i (by rw [hzl]; exact hi1)
    rw [zip_getD_of_lt _ _ 0 0 i (by rw [hsl]; exact hi) (by rw [List.length_map]; exact hi)]
      at hrec
    exact hrec
  · intro hi1
    have hi1' : i + 1 < df.length := by rw [hsfl] at hi1; exact hi1
    have hi : i < df.length := Nat.lt_of_succ_lt hi1'
    have hsl : (cumsum (calculate_sheet_3 df Z Ifac R S).seismic_force).length = df.length := by
      rw [cumsum_length, hsfl]
    have hzl : ((cumsum (calculate_sheet_3 df Z Ifac R S).seismic_force).zip
        (df.map (·.segment_h))).length = df.length := by
      rw [List.length_zip, hsl, List.length_map, min_self]
    have hrec := windMomentStep_getD_succ
      ((cumsum (calculate_sheet_3 df Z Ifac R S).seismic_force).zip (df.map (·.segment_h)))
      0 i (by rw [hzl]; exact hi1')
    rw [zip_getD_of_lt _ _ 0 0 i (by rw [hsl]; exact hi) (by rw [List.length_map]; exact hi)]
      at hrec
    rw [← hwm] at hrec
    exact hrec

theorem generate_sheet_1_level_map (p : Params) :
    (generate_sheet_1 p).map (·.level) = levels := rfl

theorem generate_sheet_1_segment_map (p : Params) :
    (generate_sheet_1 p).map (·.segment_h) =
      [0, 0.3, 2.5, 2.5, 2.5, 2.5, 2.5, 2.5, 2.5, 2.5, 2.5, 2.5, 2.5, 1.7, 1.3, 0] := by
  norm_num [generate_sheet_1, levels, List.enum]

/-- Concrete two-row input table used to witness the distributor claims. -/
def w5df : List Sheet1Row :=
  [{ level := 10, segment_h := 10, outer_dia := 1, inner_dia := 1, thickness := 0,
     area := 1, inertia := 1, z_modulus := 1, shell_wt := 1, liner_load := 0,
     platform_load := 0, corbel_load := 0 },
   { level := 0, segment_h := 0, outer_dia := 1, inner_dia := 1, thickness := 0,
     area := 1, inertia := 1, z_modulus := 1, shell_wt := 0, liner_load := 0,
     platform_load := 0, corbel_load := 0 }]

/-- Witness for C5 at a concrete two-row table, index 0. -/
theorem c5_witness :
    (0 < w5df.length) ∧
    (0 < (calculate_sheet_3 w5df 1 1 1 1).seismic_force.length) ∧
    (0 + 1 < w5df.length) ∧
    (0 + 1 < (calculate_sheet_3 w5df 1 1 1 1).seismic_force.length) ∧
    ((calculate_sheet_2 w5df 1 1 1 1).wind_shear.getD 0 0 =
      ((calculate_sheet_2 w5df 1 1 1 1).wind_force.take (0 + 1)).sum) ∧
    ((calculate_sheet_3 w5df 1 1 1 1).seismic_shear.getD 0 0 =
      ((calculate_sheet_3 w5df 1 1 1 1).seismic_force.take (0 + 1)).sum) ∧
    ((calculate_sheet_2 w5df 1 1 1 1).wind_moment.getD (0 + 1) 0 =
      (calculate_sheet_2 w5df 1 1 1 1).wind_moment.getD 0 0 +
        (calculate_sheet_2 w5df 1 1 1 1).wind_shear.getD 0 0 *
          (w5df.map (·.segment_h)).getD 0 0) ∧
    ((calculate_sheet_3 w5df 1 1 1 1).seismic_moment.getD (0 + 1) 0 =
      (calculate_sheet_3 w5df 1 1 1 1).seismic_moment.getD 0 0 +
        (calculate_sheet_3 w5df 1 1 1 1).seismic_shear.getD 0 0 *
          (w5df.map (·.segment_h)).getD 0 0) := by
  have hsfl : (calculate_sheet_3 w5df 1 1 1 1).seismic_force.length = 2 := by
    simp only [calculate_sheet_3]
    split <;> simp [w5df, List.length_zipWith]
  have ha : 0 < w5df.length := by norm_num [w5df]
  have hb : 0 < (calculate_sheet_3 w5df 1 1 1 1).seismic_force.length := by
    rw [hsfl]; norm_num
  have hc : 0 + 1 < w5df.length := by norm_num [w5df]
  have hd : 0 + 1 < (calculate_sheet_3 w5df 1 1 1 1).seismic_force.length := by
    rw [hsfl]; norm_num
  have T := c5_integrators_identical w5df 1 1 1 1 1 1 1 1 0
  exact ⟨ha, hb, hc, hd, T.2.2.1 ha, T.2.2.2.1 hb,
    T.2.2.2.2.2.2.1 hc, T.2.2.2.2.2.2.2.1 hd⟩

/-- Claim C1, counterexample: in the table generated at the default
parameters, the very first level (elevation 30.3) has `segment_height` 0,
not `elevation[0] - elevation[1] = 0.3` — the two manual overrides in
`generate_sheet_1` break the claimed elevation-difference formula. -/
theorem c1_counterexample :
    ¬ (∀ i : ℕ, i + 1 < (generate_sheet_1 defaultParams).length →
        ((generate_sheet_1 defaultParams).getD i default).segment_h =
          ((generate_sheet_1 defaultParams).getD i default).level -
            ((generate_sheet_1 defaultParams).getD (i + 1) default).level) := by
  intro hall
  have hlen : (generate_sheet_1 defaultParams).length = 16 := rfl
  have h0 := hall 0 (by rw [hlen]; norm_num)
  norm_num [generate_sheet_1, levels, List.enum, defaultParams] at h0

/-- Claim C1, amended: `segment_height` equals `elevation[i] - elevation[i+1]`
for every index `i ≥ 2` before the last, the last level has `segment_height`
0, and the two manually overridden top rows have `segment_height` 0 (index 0,
elevation 30.3) and 0.3 (index 1, elevation 30.0). -/
theorem c1_amended (p : Params) (i : ℕ) :
    (2 ≤ i → i + 1 < (generate_sheet_1 p).length →
      ((generate_sheet_1 p).getD i default).segment_h =
        ((generate_sheet_1 p).getD i default).level -
          ((generate_sheet_1 p).getD (i + 1) default).level) ∧
    ((generate_sheet_1 p).getD 0 default).segment_h = 0 ∧
    ((generate_sheet_1 p).getD 1 default).segment_h = 0.3 ∧
    ((generate_sheet_1 p).getD 15 default).segment_h = 0 := by
  have hlen : (generate_sheet_1 p).length = 16 := rfl
  have hseg : ∀ j, j < 16 →
      ((generate_sheet_1 p).getD j default).segment_h =
        ([0, 0.3, 2.5, 2.5, 2.5, 2.5, 2.5, 2.5, 2.5, 2.5, 2.5, 2.5, 2.5, 1.7, 1.3, 0] :
          List ℚ).getD j 0 := by
    intro j hj
    have h1 := getD_map_of_lt (fun r : Sheet1Row => r.segment_h) (generate_sheet_1 p)
      default 0 j (by rw [hlen]; exact hj)
    rw [generate_sheet_1_segment_map p] at h1
    exact h1.symm
  have hlev : ∀ j, j < 16 →
      ((generate_sheet_1 p).getD j default).level = levels.getD j 0 := by
    intro j hj
    have h1 := getD_map_of_lt (fun r : Sheet1Row => r.level) (generate_sheet_1 p)
      default 0 j (by rw [hlen]; exact hj)
    rw [generate_sheet_1_level_map p] at h1
    exact h1.symm
  refine ⟨?_, ?_, ?_, ?_⟩
  · intro h2 hi1
    rw [hlen] at hi1
    have hub : i ≤ 14 := by omega
    rw [hseg i (by omega), hlev i (by omega), hlev (i + 1) (by omega)]
    interval_cases i <;> norm_num [levels]
  · rw [hseg 0 (by norm_num)]
    norm_num
  · rw [hseg 1 (by norm_num)]
    norm_num
  · rw [hseg 15 (by norm_num)]
    norm_num

/-- Witness for the amended C1 at the default parameters, index 2. -/
theorem c1_witness :
    (2 ≤ 2 ∧ 2 + 1 < (generate_sheet_1 defaultParams).length) ∧
    ((generate_sheet_1 defaultParams).getD 2 default).segment_h =
      ((generate_sheet_1 defaultParams).getD 2 default).level -
        ((generate_sheet_1 defaultParams).getD (2 + 1) default).level := by
  have hlen : (generate_sheet_1 defaultParams).length = 16 := rfl
  have hb : 2 ≤ 2 ∧ 2 + 1 < (generate_sheet_1 defaultParams).length :=
    ⟨le_refl 2, by rw [hlen]; norm_num⟩
  exact ⟨hb, (c1_amended defaultParams 2).1 hb.1 hb.2⟩

/-- Claim C6, counterexample: the generated level list does not terminate at
elevation 0 — its last elevation is -3.0, and below-grade levels exist. -/
theorem c6_counterexample :
    ((generate_sheet_1 defaultParams).map (·.level)).getLast? = some (-3.0) ∧
    ¬ ((generate_sheet_1 defaultParams).map (·.level)).getLast? = some 0 := by
  have hlast : ((generate_sheet_1 defaultParams).map (·.level)).getLast? = some (-3.0) := rfl
  refine ⟨hlast, ?_⟩
  rw [hlast]
  intro h
  have h3 : (-3.0 : ℚ) = 0 := by injection h
  norm_num at h3

/-- Claim C6, amended: `generate_sheet_1` produces one level per elevation of
its hardcoded list, strictly decreasing down the list, but terminating at
elevation -3.0 (the raft), not at 0. -/
theorem c6_amended (p : Params) :
    (generate_sheet_1 p).map (·.level) = levels ∧
    ((generate_sheet_1 p).map (·.level)).Chain' (· > ·) ∧
    ((generate_sheet_1 p).map (·.level)).getLast? = some (-3.0) := by
  refine ⟨rfl, ?_, rfl⟩
  rw [generate_sheet_1_level_map p]
  norm_num [levels, List.chain'_cons]

theorem sum_map_mul_left_q (c : ℚ) (l : List ℚ) :
    (l.map fun x => c * x).sum = c * l.sum := by
  induction l with
  | nil => simp
  | cons x t ih => simp [ih, mul_add]

theorem seismic_force_zero_of_wi_hi2_sum_zero (df : List Sheet1Row)
    (Z Ifac R S : ℚ) (hs : (calculate_sheet_3 df Z Ifac R S).wi_hi2.sum = 0) :
    ∀ f ∈ (calculate_sheet_3 df Z Ifac R S).seismic_force, f = 0 := by
  intro f hf
  simp only [calculate_sheet_3] at hs hf
  rw [if_pos hs] at hf
  obtain ⟨a, -, h⟩ := List.mem_map.mp hf
  exact h.symm

/-- Concrete one-row table whose only weight sits at the base level, so that
`sum(W*h^2) = 0` while the total weight is 1. -/
def c2df : List Sheet1Row :=
  [{ level := 0, segment_h := 0, outer_dia := 1, inner_dia := 1, thickness := 0,
     area := 1, inertia := 1, z_modulus := 1, shell_wt := 1, liner_load := 0,
     platform_load := 0, corbel_load := 0 }]

/-- Claim C2, counterexample: with the whole seismic weight at the base level,
`sum(W*h^2) = 0` makes every distributed force 0 while the base shear
`Ah * total_weight` is positive, so the forces do not sum to the base shear. -/
theorem c2_counterexample :
    (calculate_sheet_3 c2df 1 1.5 3 2.5).seismic_force.sum ≠
      (calculate_sheet_3 c2df 1 1.5 3 2.5).base_shear := by
  norm_num [calculate_sheet_3, c2df, listMin]

/-- Claim C2, amended: the seismic forces sum exactly to the base shear
whenever `sum(W*h^2)` is nonzero; when `sum(W*h^2) = 0` (in particular when
the total weight is 0) every level's seismic force is 0 and no division
occurs. -/
theorem c2_amended (df : List Sheet1Row) (Z Ifac R S : ℚ) :
    ((calculate_sheet_3 df Z Ifac R S).wi_hi2.sum ≠ 0 →
      (calculate_sheet_3 df Z Ifac R S).seismic_force.sum =
        (calculate_sheet_3 df Z Ifac R S).base_shear) ∧
    ((calculate_sheet_3 df Z Ifac R S).wi_hi2.sum = 0 →
      ∀ f ∈ (calculate_sheet_3 df Z Ifac R S).seismic_force, f = 0) ∧
    ((calculate_sheet_3 df Z Ifac R S).total_node_wt.sum = 0 →
      ∀ f ∈ (calculate_sheet_3 df Z Ifac R S).seismic_force, f = 0) := by
  refine ⟨?_, seismic_force_zero_of_wi_hi2_sum_zero df Z Ifac R S, ?_⟩
  · intro hs
    simp only [calculate_sheet_3] at hs ⊢
    rw [if_neg hs]
    have hmap :
        (List.zipWith (fun w h => w * h ^ 2)
            (df.map fun r => r.shell_wt + r.liner_load + r.platform_load + r.corbel_load)
            (df.map fun r => r.level - listMin (df.map (·.level)))).map
          (fun w =>
            Z / 2 * (Ifac / R) * S *
                (df.map fun r =>
                  r.shell_wt + r.liner_load + r.platform_load + r.corbel_load).sum *
              (w /
                (List.zipWith (fun w h => w * h ^ 2)
                    (df.map fun r =>
                      r.shell_wt + r.liner_load + r.platform_load + r.corbel_load)
                    (df.map fun r => r.level - listMin (df.map (·.level)))).sum)) =
          (List.zipWith (fun w h => w * h ^ 2)
            (df.map fun r => r.shell_wt + r.liner_load + r.platform_load + r.corbel_load)
            (df.map fun r => r.level - listMin (df.map (·.level)))).map
          (fun w =>
            (Z / 2 * (Ifac / R) * S *
                (df.map fun r =>
                  r.shell_wt + r.liner_load + r.platform_load + r.corbel_load).sum /
              (List.zipWith (fun w h => w * h ^ 2)
                  (df.map fun r =>
                    r.shell_wt + r.liner_load + r.platform_load + r.corbel_load)
                  (df.map fun r => r.level - listMin (df.map (·.level)))).sum) * w) := by
      apply List.map_congr_left
      intro a _
      ring
    rw [hmap, sum_map_mul_left_q]
    exact div_mul_cancel₀ _ hs
  · intro hW f hf
    simp only [calculate_sheet_3] at hW hf
    by_cases hs :
        (List.zipWith (fun w h => w * h ^ 2)
          (df.map fun r => r.shell_wt + r.liner_load + r.platform_load + r.corbel_load)
          (df.map fun r => r.level - listMin (df.map (·.level)))).sum = 0
    · rw [if_pos hs] at hf
      obtain ⟨a, -, h⟩ := List.mem_map.mp hf
      exact h.symm
    · rw [if_neg hs] at hf
      obtain ⟨a, -, h⟩ := List.mem_map.mp hf
      rw [← h, hW, mul_zero, zero_mul]

/-- Concrete one-row table with zero total weight. -/
def c2zero_df : List Sheet1Row :=
  [{ level := 5, segment_h := 1, outer_dia := 1, inner_dia := 1, thickness := 0,
     area := 1, inertia := 1, z_modulus := 1, shell_wt := 0, liner_load := 0,
     platform_load := 0, corbel_load := 0 }]

/-- Witness for the amended C2 at three concrete tables. -/
theorem c2_witness :
    ((calculate_sheet_3 w5df 1 1 1 1).wi_hi2.sum ≠ 0) ∧
    ((calculate_sheet_3 w5df 1 1 1 1).seismic_force.sum =
      (calculate_sheet_3 w5df 1 1 1 1).base_shear) ∧
    ((calculate_sheet_3 c2df 1 1.5 3 2.5).wi_hi2.sum = 0) ∧
    (∀ f ∈ (calculate_sheet_3 c2df 1 1.5 3 2.5).seismic_force, f = 0) ∧
    ((calculate_sheet_3 c2zero_df 1 1.5 3 2.5).total_node_wt.sum = 0) ∧
    (∀ f ∈ (calculate_sheet_3 c2zero_df 1 1.5 3 2.5).seismic_force, f = 0) := by
  have h1 : (calculate_sheet_3 w5df 1 1 1 1).wi_hi2.sum ≠ 0 := by
    norm_num [calculate_sheet_3, w5df, listMin]
  have h2 : (calculate_sheet_3 c2df 1 1.5 3 2.5).wi_hi2.sum = 0 := by
    norm_num [calculate_sheet_3, c2df, listMin]
  have h3 : (calculate_sheet_3 c2zero_df 1 1.5 3 2.5).total_node_wt.sum = 0 := by
    norm_num [calculate_sheet_3, c2zero_df]
  exact ⟨h1, (c2_amended w5df 1 1 1 1).1 h1, h2,
    (c2_amended c2df 1 1.5 3 2.5).2.1 h2, h3,
    (c2_amended c2zero_df 1 1.5 3 2.5).2.2 h3⟩

/-- Claim C4: the wind force column is exactly
`0.6 * (Vb*k1*k2(h)*k3)^2 / 1000 * outer_dia * segment_h * Cd / 9.81` with
`h` the level elevation clamped to be at least 0, and `k2` is the claimed
step function of height. -/
theorem c4_wind_force_formula (df : List Sheet1Row) (vb k1 k3 cd h : ℚ) :
    (calculate_sheet_2 df vb k1 k3 cd).wind_force = df.map (fun r =>
      0.6 * (vb * k1 * get_k2 (max r.level 0) * k3) ^ 2 / 1000 *
        r.outer_dia * r.segment_h * cd / 9.81) ∧
    (h ≤ 10 → get_k2 h = 1.00) ∧
    (10 < h → h ≤ 15 → get_k2 h = 1.05) ∧
    (15 < h → h ≤ 20 → get_k2 h = 1.07) ∧
    (20 < h → h ≤ 30 → get_k2 h = 1.12) ∧
    (30 < h → get_k2 h = 1.15) := by
  refine ⟨?_, ?_, ?_, ?_, ?_, ?_⟩
  · show df.map (wind_force_row vb k1 k3 cd) = _
    apply List.map_congr_left
    intro r _
    unfold wind_force_row
    have hmax : (if r.level > 0 then r.level else 0) = max r.level 0 := by
      rcases le_or_lt r.level 0 with hl | hl
      · rw [if_neg (not_lt.mpr hl), max_eq_right hl]
      · rw [if_pos hl, max_eq_left hl.le]
    rw [hmax]
    ring
  · intro h1
    unfold get_k2
    rw [if_pos h1]
    norm_num
  · intro h1 h2
    unfold get_k2
    split_ifs <;> linarith
  · intro h1 h2
    unfold get_k2
    split_ifs <;> linarith
  · intro h1 h2
    unfold get_k2
    split_ifs <;> linarith
  · intro h1
    unfold get_k2
    split_ifs <;> linarith

/-- Witness for C4: one evaluation in each `k2` band. -/
theorem c4_witness :
    ((5 : ℚ) ≤ 10 ∧ get_k2 5 = 1.00) ∧
    ((10 : ℚ) < 12 ∧ (12 : ℚ) ≤ 15 ∧ get_k2 12 = 1.05) ∧
    ((15 : ℚ) < 17 ∧ (17 : ℚ) ≤ 20 ∧ get_k2 17 = 1.07) ∧
    ((20 : ℚ) < 25 ∧ (25 : ℚ) ≤ 30 ∧ get_k2 25 = 1.12) ∧
    ((30 : ℚ) < 31 ∧ get_k2 31 = 1.15) :=
  ⟨⟨by norm_num, (c4_wind_force_formula w5df 1 1 1 1 5).2.1 (by norm_num)⟩,
   ⟨by norm_num, by norm_num,
     (c4_wind_force_formula w5df 1 1 1 1 12).2.2.1 (by norm_num) (by norm_num)⟩,
   ⟨by norm_num, by norm_num,
     (c4_wind_force_formula w5df 1 1 1 1 17).2.2.2.1 (by norm_num) (by norm_num)⟩,
   ⟨by norm_num, by norm_num,
     (c4_wind_force_formula w5df 1 1 1 1 25).2.2.2.2.1 (by norm_num) (by norm_num)⟩,
   ⟨by norm_num, (c4_wind_force_formula w5df 1 1 1 1 31).2.2.2.2.2 (by norm_num)⟩⟩

/-- Claim C7: every degenerate division short-circuits to 0 — zero area gives
zero direct stress, zero section modulus gives zero bending stress, and zero
`sum(W*h^2)` gives all-zero seismic forces. -/
theorem c7_degenerate_divisions (df : List Sheet4In) (i : ℕ) (hi : i < df.length)
    (df3 : List Sheet1Row) (Z Ifac R S : ℚ) :
    ((df.getD i default).area = 0 →
      ((calculate_sheet_4 df).getD i default).stress_direct = 0) ∧
    ((df.getD i default).z_modulus = 0 →
      ((calculate_sheet_4 df).getD i default).stress_bending = 0) ∧
    ((calculate_sheet_3 df3 Z Ifac R S).wi_hi2.sum = 0 →
      ∀ f ∈ (calculate_sheet_3 df3 Z Ifac R S).seismic_force, f = 0) := by
  have hcl : i < (cumsum (df.map (·.total_node_wt))).length := by
    rw [cumsum_length, List.length_map]
    exact hi
  have hzl : i < (df.zip (cumsum (df.map (·.total_node_wt)))).length := by
    rw [List.length_zip, cumsum_length, List.length_map, min_self]
    exact hi
  have hrow : (calculate_sheet_4 df).getD i default =
      stress_row ((df.zip (cumsum (df.map (·.total_node_wt)))).getD i (default, 0)) :=
    getD_map_of_lt stress_row _ (default, 0) default i hzl
  have hpair : (df.zip (cumsum (df.map (·.total_node_wt)))).getD i (default, 0) =
      (df.getD i default, (cumsum (df.map (·.total_node_wt))).getD i 0) :=
    zip_getD_of_lt _ _ default 0 i hi hcl
  rw [hpair] at hrow
  refine ⟨?_, ?_, seismic_force_zero_of_wi_hi2_sum_zero df3 Z Ifac R S⟩
  · intro hA
    have hsd : (stress_row (df.getD i default,
        (cumsum (df.map (·.total_node_wt))).getD i 0)).stress_direct =
        if (df.getD i default).area > 0 then
          ((cumsum (df.map (·.total_node_wt))).getD i 0) / (df.getD i default).area
        else 0 := rfl
    rw [hrow, hsd, hA]
    norm_num
  · intro hZ
    have hsb : (stress_row (df.getD i default,
        (cumsum (df.map (·.total_node_wt))).getD i 0)).stress_bending =
        if (df.getD i default).z_modulus > 0 then
          max (df.getD i default).wind_moment (df.getD i default).seismic_moment /
            (df.getD i default).z_modulus
        else 0 := rfl
    rw [hrow, hsb, hZ]
    norm_num

/-- Concrete one-row table with a degenerate (zero) area and section modulus. -/
def c7df : List Sheet4In :=
  [{ level := 0, total_node_wt := 1, wind_moment := 1, seismic_moment := 0,
     area := 0, z_modulus := 0 }]

/-- Witness for C7 at concrete degenerate tables. -/
theorem c7_witness :
    (0 < c7df.length) ∧
    ((c7df.getD 0 default).area = 0) ∧
    (((calculate_sheet_4 c7df).getD 0 default).stress_direct = 0) ∧
    ((c7df.getD 0 default).z_modulus = 0) ∧
    (((calculate_sheet_4 c7df).getD 0 default).stress_bending = 0) ∧
    ((calculate_sheet_3 c2df 1 1.5 3 2.5).wi_hi2.sum = 0) ∧
    (∀ f ∈ (calculate_sheet_3 c2df 1 1.5 3 2.5).seismic_force, f = 0) := by
  have h0 : 0 < c7df.length := by norm_num [c7df]
  have hA : (c7df.getD 0 default).area = 0 := by norm_num [c7df]
  have hZ : (c7df.getD 0 default).z_modulus = 0 := by norm_num [c7df]
  have hs : (calculate_sheet_3 c2df 1 1.5 3 2.5).wi_hi2.sum = 0 := by
    norm_num [calculate_sheet_3, c2df, listMin]
  have T := c7_degenerate_divisions c7df 0 h0 c2df 1 1.5 3 2.5
  exact ⟨h0, hA, T.1 hA, hZ, T.2.1 hZ, hs, T.2.2 hs⟩

/-- Claim C8: when all per-level forces and loads are nonnegative, the
cumulative wind shear, seismic shear and axial load columns are each
non-decreasing from the top level down to the base. -/
theorem c8_cumulative_monotone (df : List Sheet1Row) (vb k1 k3 cd Z Ifac R S : ℚ)
    (df4 : List Sheet4In) (i j : ℕ) (hij : i ≤ j)
    (hwf : ∀ f ∈ (calculate_sheet_2 df vb k1 k3 cd).wind_force, 0 ≤ f)
    (hsf : ∀ f ∈ (calculate_sheet_3 df Z Ifac R S).seismic_force, 0 ≤ f)
    (hw4 : ∀ r ∈ df4, 0 ≤ r.total_node_wt) :
    (j < df.length →
      (calculate_sheet_2 df vb k1 k3 cd).wind_shear.getD i 0 ≤
        (calculate_sheet_2 df vb k1 k3 cd).wind_shear.getD j 0) ∧
    (j < (calculate_sheet_3 df Z Ifac R S).seismic_force.length →
      (calculate_sheet_3 df Z Ifac R S).seismic_shear.getD i 0 ≤
        (calculate_sheet_3 df Z Ifac R S).seismic_shear.getD j 0) ∧
    (j < df4.length →
      ((calculate_sheet_4 df4).getD i default).axial_p ≤
        ((calculate_sheet_4 df4).getD j default).axial_p) := by
  refine ⟨?_, ?_, ?_⟩
  · intro hj
    exact cumsum_getD_mono _ hwf i j hij (by simpa [calculate_sheet_2] using hj)
  · intro hj
    exact cumsum_getD_mono _ hsf i j hij hj
  · intro hj
    have hi' : i < df4.length := lt_of_le_of_lt hij hj
    have hax : ∀ k, k < df4.length →
        ((calculate_sheet_4 df4).getD k default).axial_p =
          (cumsum (df4.map (·.total_node_wt))).getD k 0 := by
      intro k hk
      have hcl : k < (cumsum (df4.map (·.total_node_wt))).length := by
        rw [cumsum_length, List.length_map]
        exact hk
      have hzl : k < (df4.zip (cumsum (df4.map (·.total_node_wt)))).length := by
        rw [List.length_zip, cumsum_length, List.length_map, min_self]
        exact hk
      have hrow : (calculate_sheet_4 df4).getD k default =
          stress_row ((df4.zip (cumsum (df4.map (·.total_node_wt)))).getD k (default, 0)) :=
        getD_map_of_lt stress_row _ (default, 0) default k hzl
      rw [hrow, zip_getD_of_lt _ _ default 0 k hk hcl]
      rfl
    rw [hax i hi', hax j hj]
    refine cumsum_getD_mono _ ?_ i j hij (by rw [List.length_map]; exact hj)
    intro x hx
    obtain ⟨r, hr, rfl⟩ := List.mem_map.mp hx
    exact hw4 r hr

/-- Concrete two-row stress-input table with nonnegative weights. -/
def c8df4 : List Sheet4In :=
  [{ level := 10, total_node_wt := 1, wind_moment := 0, seismic_moment := 0,
     area := 1, z_modulus := 1 },
   { level := 0, total_node_wt := 2, wind_moment := 0, seismic_moment := 0,
     area := 1, z_modulus := 1 }]

/-- Witness for C8 at concrete two-row tables, indices 0 and 1. -/
theorem c8_witness :
    ((0 : ℕ) ≤ 1) ∧
    (∀ f ∈ (calculate_sheet_2 w5df 1 1 1 1).wind_force, 0 ≤ f) ∧
    (∀ f ∈ (calculate_sheet_3 w5df 1 1 1 1).seismic_force, 0 ≤ f) ∧
    (∀ r ∈ c8df4, 0 ≤ r.total_node_wt) ∧
    (1 < w5df.length) ∧
    ((calculate_sheet_2 w5df 1 1 1 1).wind_shear.getD 0 0 ≤
      (calculate_sheet_2 w5df 1 1 1 1).wind_shear.getD 1 0) ∧
    (1 < (calculate_sheet_3 w5df 1 1 1 1).seismic_force.length) ∧
    ((calculate_sheet_3 w5df 1 1 1 1).seismic_shear.getD 0 0 ≤
      (calculate_sheet_3 w5df 1 1 1 1).seismic_shear.getD 1 0) ∧
    (1 < c8df4.length) ∧
    (((calculate_sheet_4 c8df4).getD 0 default).axial_p ≤
      ((calculate_sheet_4 c8df4).getD 1 default).axial_p) := by
  have hwf : ∀ f ∈ (calculate_sheet_2 w5df 1 1 1 1).wind_force, 0 ≤ f := by
    norm_num [calculate_sheet_2, wind_force_row, get_k2, w5df]
  have hsf : ∀ f ∈ (calculate_sheet_3 w5df 1 1 1 1).seismic_force, 0 ≤ f := by
    norm_num [calculate_sheet_3, w5df, listMin]
  have hw4 : ∀ r ∈ c8df4, 0 ≤ r.total_node_wt := by
    norm_num [c8df4]
  have hjw : 1 < w5df.length := by norm_num [w5df]
  have hjs : 1 < (calculate_sheet_3 w5df 1 1 1 1).seismic_force.length := by
    simp only [calculate_sheet_3]
    split <;> simp [w5df, List.length_zipWith]
  have hj4 : 1 < c8df4.length := by norm_num [c8df4]
  have T := c8_cumulative_monotone w5df 1 1 1 1 1 1 1 1 c8df4 0 1 (by norm_num) hwf hsf hw4
  exact ⟨by norm_num, hwf, hsf, hw4, hjw, T.1 hjw, hjs, T.2.1 hjs, hj4, T.2.2 hj4⟩
